import Mathlib

/-
Verification of the cashgb Game Boy emulator core.

This file is a shallow embedding of the parts of the emulator that the
verified properties concern: the PPU dot-clock state machine
(src/ppu/timing.rs, src/ppu/registers.rs, src/ppu/mod.rs), the cartridge
mappers and header validation (src/memory/mbc.rs, src/memory/cart/),
the memory bus (src/memory/mod.rs), and the CPU fetch/dispatch loop
(src/cpu/mod.rs, src/cpu/instructions.rs, src/cpu/execute.rs).

Machine integers are embedded as Nat with explicit wrap-around (`% 256`,
`% 65536`) at the points where the Rust code performs wrapping u8/u16
arithmetic (release semantics). Code paths that panic in Rust are
embedded as `Option`, with `none` marking the panic.
-/

namespace Cashgb

/-- LCD mode enumeration, from src/ppu/timing.rs (`LcdMode`). -/
inductive LcdMode where
  | HBlank
  | VBlank
  | OamScan
  | Drawing
deriving DecidableEq, Repr

/-- Numeric discriminants of `LcdMode` (`HBlank = 0, VBlank = 1, OamScan = 2,
Drawing = 3`), used as the STAT mode bits via `mode as u8`. -/
def LcdMode.code : LcdMode → Nat
  | .HBlank => 0
  | .VBlank => 1
  | .OamScan => 2
  | .Drawing => 3

/-- Interrupt enumeration, from src/cpu/instructions.rs (`Interrupt`). -/
inductive Interrupt where
  | VBlank
  | LCD
  | Timer
  | Serial
  | Joypad
deriving DecidableEq, Repr

/-- Numeric discriminants of `Interrupt` (`1 << 0` .. `1 << 4`). -/
def Interrupt.code : Interrupt → Nat
  | .VBlank => 1
  | .LCD => 2
  | .Timer => 4
  | .Serial => 8
  | .Joypad => 16

/-- CPU status enumeration, from src/cpu/instructions.rs (`CpuStatus`). -/
inductive CpuStatus where
  | Running
  | Halted
  | Stopped
  | Errored
deriving DecidableEq, Repr

/-- PPU register file, from src/ppu/registers.rs (`PpuRegisters`).
All fields are u8 values. -/
structure PpuRegisters where
  lcdc : Nat
  stat : Nat
  scy : Nat
  scx : Nat
  ly : Nat
  lyc : Nat
  bgp : Nat
  obp0 : Nat
  obp1 : Nat
  wy : Nat
  wx : Nat
deriving DecidableEq, Repr

namespace PpuRegisters

/-- PpuRegisters::new — Game Boy boot values. -/
def new : PpuRegisters :=
  { lcdc := 0x91
    stat := 0x00
    scy := 0
    scx := 0
    ly := 0
    lyc := 0
    bgp := 0xFC
    obp0 := 0xFF
    obp1 := 0xFF
    wy := 0
    wx := 0 }

/-- PpuRegisters::is_lcd_enabled — LCDC bit 7. -/
def is_lcd_enabled (r : PpuRegisters) : Bool := r.lcdc &&& 0x80 != 0

/-- PpuRegisters::sprite_size — LCDC bit 2. -/
def sprite_size (r : PpuRegisters) : Bool := r.lcdc &&& 0x04 != 0

/-- PpuRegisters::is_lyc_interrupt_enabled — STAT bit 6. -/
def is_lyc_interrupt_enabled (r : PpuRegisters) : Bool := r.stat &&& 0x40 != 0

/-- PpuRegisters::is_oam_interrupt_enabled — STAT bit 5. -/
def is_oam_interrupt_enabled (r : PpuRegisters) : Bool := r.stat &&& 0x20 != 0

/-- PpuRegisters::is_vblank_interrupt_enabled — STAT bit 4. -/
def is_vblank_interrupt_enabled (r : PpuRegisters) : Bool := r.stat &&& 0x10 != 0

/-- PpuRegisters::is_hblank_interrupt_enabled — STAT bit 3. -/
def is_hblank_interrupt_enabled (r : PpuRegisters) : Bool := r.stat &&& 0x08 != 0

/-- PpuRegisters::get_lyc_flag — STAT bit 2. -/
def get_lyc_flag (r : PpuRegisters) : Bool := r.stat &&& 0x04 != 0

/-- PpuRegisters::set_lyc_flag. In Rust the clearing mask is `!0x04u8 = 0xFB`. -/
def set_lyc_flag (r : PpuRegisters) (v : Bool) : PpuRegisters :=
  if v then { r with stat := r.stat ||| 0x04 }
  else { r with stat := r.stat &&& 0xFB }

/-- PpuRegisters::set_mode — writes STAT bits 1..0. -/
def set_mode (r : PpuRegisters) (m : LcdMode) : PpuRegisters :=
  { r with stat := (r.stat &&& 0xFC) ||| m.code }

/-- PpuRegisters::read_stat — bit 7 always reads 1. -/
def read_stat (r : PpuRegisters) : Nat := r.stat ||| 0x80

/-- PpuRegisters::write_stat — only bits 6..3 are writable. -/
def write_stat (r : PpuRegisters) (v : Nat) : PpuRegisters :=
  { r with stat := (r.stat &&& 0x07) ||| (v &&& 0x78) }

/-- PpuRegisters::set_ly (internal). -/
def set_ly (r : PpuRegisters) (v : Nat) : PpuRegisters := { r with ly := v }

/-- PpuRegisters::read_register — PPU register read by bus address. -/
def read_register (r : PpuRegisters) (addr : Nat) : Nat :=
  if addr = 0xFF40 then r.lcdc
  else if addr = 0xFF41 then r.read_stat
  else if addr = 0xFF42 then r.scy
  else if addr = 0xFF43 then r.scx
  else if addr = 0xFF44 then r.ly
  else if addr = 0xFF45 then r.lyc
  else if addr = 0xFF47 then r.bgp
  else if addr = 0xFF48 then r.obp0
  else if addr = 0xFF49 then r.obp1
  else if addr = 0xFF4A then r.wy
  else if addr = 0xFF4B then r.wx
  else 0xFF

/-- PpuRegisters::write_register — PPU register write by bus address
(LY at 0xFF44 is read-only; unknown addresses are ignored). -/
def write_register (r : PpuRegisters) (addr v : Nat) : PpuRegisters :=
  if addr = 0xFF40 then { r with lcdc := v }
  else if addr = 0xFF41 then r.write_stat v
  else if addr = 0xFF42 then { r with scy := v }
  else if addr = 0xFF43 then { r with scx := v }
  else if addr = 0xFF44 then r
  else if addr = 0xFF45 then { r with lyc := v }
  else if addr = 0xFF47 then { r with bgp := v }
  else if addr = 0xFF48 then { r with obp0 := v }
  else if addr = 0xFF49 then { r with obp1 := v }
  else if addr = 0xFF4A then { r with wy := v }
  else if addr = 0xFF4B then { r with wx := v }
  else r

end PpuRegisters

/-- PPU state, from src/ppu/mod.rs (`Ppu`). The framebuffer, the scanline
line/sprite buffers and the background/sprite renderer caches are omitted:
they are written only by `render_scanline` and the OAM scan, and none of the
mode/`ly`/STAT/interrupt logic embedded here reads them. VRAM and OAM are
embedded as total byte functions (`Nat → Nat`). -/
structure Ppu where
  mode : LcdMode
  dots : Nat
  scanline : Nat
  registers : PpuRegisters
  vram : Nat → Nat
  oam : Nat → Nat
  frame_ready : Bool

namespace Ppu

/-- Ppu::new. -/
def new : Ppu :=
  { mode := .OamScan
    dots := 0
    scanline := 0
    registers := PpuRegisters.new
    vram := fun _ => 0
    oam := fun _ => 0
    frame_ready := false }

/-- Ppu::handle_oam_scan (Mode 2). The OAM sprite scan performed at the
transition mutates only the (omitted) sprite renderer cache. -/
def handle_oam_scan (p : Ppu) : Ppu × Option Interrupt :=
  if p.dots ≥ 80 then
    ({ p with
       dots := 0
       mode := .Drawing
       registers := p.registers.set_mode .Drawing }, none)
  else (p, none)

/-- Ppu::handle_drawing (Mode 3). `render_scanline`, called at the
transition, writes only the (omitted) line buffers and framebuffer. -/
def handle_drawing (p : Ppu) : Ppu × Option Interrupt :=
  if p.dots ≥ 172 then
    let p := { p with
               dots := 0
               mode := .HBlank
               registers := p.registers.set_mode .HBlank }
    if p.registers.is_hblank_interrupt_enabled then (p, some .LCD)
    else (p, none)
  else (p, none)

/-- Ppu::handle_hblank (Mode 0). `scanline` is u8 (`wrapping_add(1)`). -/
def handle_hblank (p : Ppu) : Ppu × Option Interrupt :=
  if p.dots ≥ 204 then
    let ly := (p.scanline + 1) % 256
    let p := { p with
               dots := 0
               scanline := ly
               registers := p.registers.set_ly ly }
    if ly ≥ 144 then
      ({ p with
         mode := .VBlank
         registers := p.registers.set_mode .VBlank
         frame_ready := true }, some .VBlank)
    else
      let p := { p with
                 mode := .OamScan
                 registers := p.registers.set_mode .OamScan }
      if p.registers.is_oam_interrupt_enabled then (p, some .LCD)
      else if p.registers.is_lyc_interrupt_enabled ∧ ly = p.registers.lyc then
        ({ p with registers := p.registers.set_lyc_flag true }, some .LCD)
      else
        ({ p with registers := p.registers.set_lyc_flag false }, none)
  else (p, none)

/-- Ppu::handle_vblank (Mode 1). -/
def handle_vblank (p : Ppu) : Ppu × Option Interrupt :=
  if p.dots ≥ 456 then
    let ly := (p.scanline + 1) % 256
    let p := { p with
               dots := 0
               scanline := ly
               registers := p.registers.set_ly ly }
    if ly ≥ 154 then
      let p := { p with
                 scanline := 0
                 mode := .OamScan
                 registers := (p.registers.set_ly 0).set_mode .OamScan }
      if p.registers.is_oam_interrupt_enabled then (p, some .LCD)
      else (p, none)
    else (p, none)
  else (p, none)

/-- Ppu::step — advances `dots` (u16) by `cycles` and evaluates the current
mode handler; a no-op when the LCD is disabled. -/
def step (p : Ppu) (cycles : Nat) : Ppu × Option Interrupt :=
  if !p.registers.is_lcd_enabled then (p, none)
  else
    let p := { p with dots := (p.dots + cycles) % 65536 }
    match p.mode with
    | .OamScan => p.handle_oam_scan
    | .Drawing => p.handle_drawing
    | .HBlank => p.handle_hblank
    | .VBlank => p.handle_vblank

/-- Iterate `step` with 4 dots per call (one machine cycle = 4 dots),
discarding the interrupt outputs. -/
def stepN : Nat → Ppu → Ppu
  | 0, p => p
  | n + 1, p => stepN n (p.step 4).1

/-- Ppu::read_vram — 0xFF during Drawing. -/
def read_vram (p : Ppu) (addr : Nat) : Nat :=
  if p.mode = .Drawing then 0xFF
  else
    let offset := addr - 0x8000
    if offset < 0x2000 then p.vram offset else 0xFF

/-- Ppu::write_vram — ignored during Drawing. -/
def write_vram (p : Ppu) (addr v : Nat) : Ppu :=
  if p.mode = .Drawing then p
  else
    let offset := addr - 0x8000
    if offset < 0x2000 then
      { p with vram := fun i => if i = offset then v else p.vram i }
    else p

/-- Ppu::read_oam — 0xFF during OamScan and Drawing. -/
def read_oam (p : Ppu) (addr : Nat) : Nat :=
  if p.mode = .OamScan ∨ p.mode = .Drawing then 0xFF
  else
    let offset := addr - 0xFE00
    if offset < 0xA0 then p.oam offset else 0xFF

/-- Ppu::write_oam — ignored during OamScan and Drawing. -/
def write_oam (p : Ppu) (addr v : Nat) : Ppu :=
  if p.mode = .OamScan ∨ p.mode = .Drawing then p
  else
    let offset := addr - 0xFE00
    if offset < 0xA0 then
      { p with oam := fun i => if i = offset then v else p.oam i }
    else p

end Ppu

/-- A Rust `Vec<u8>`: a length together with total byte contents. -/
structure ByteVec where
  len : Nat
  data : Nat → Nat

/-- Wrapping u8 subtraction (`wrapping_sub`). -/
def wsub8 (a b : Nat) : Nat := (a % 256 + 256 - b % 256) % 256

/-- NoMBC mapper (32KB ROM only), from src/memory/mbc.rs (`NoMBC`). -/
structure NoMBC where
  rom : ByteVec

/-- NoMBC::read — ROM bytes in 0x0000–0x7FFF, `None` elsewhere or past the
end of the ROM vector. -/
def NoMBC.read (m : NoMBC) (addr : Nat) : Option Nat :=
  if addr ≤ 0x7FFF then
    if addr < m.rom.len then some (m.rom.data addr) else none
  else none

/-- NoMBC::write — ROM is read-only, every write is ignored. -/
def NoMBC.write (m : NoMBC) (_addr _v : Nat) : NoMBC := m

/-- MBC1 banking mode, from src/memory/mbc.rs (`MBC1Mode`). -/
inductive MBC1Mode where
  | Rom
  | Ram
deriving DecidableEq, Repr

/-- MBC1 mapper state, from src/memory/mbc.rs (`MBC1`). -/
structure MBC1 where
  rom : ByteVec
  ram : ByteVec
  rom_bank : Nat
  ram_bank : Nat
  ram_enabled : Bool
  mode : MBC1Mode
  rom_banks : Nat
  ram_banks : Nat

/-- MBC1::new. -/
def MBC1.new (rom : ByteVec) (ram_size rom_banks ram_banks : Nat) : MBC1 :=
  { rom := rom
    ram := ⟨ram_size, fun _ => 0⟩
    rom_bank := 1
    ram_bank := 0
    ram_enabled := false
    mode := .Rom
    rom_banks := rom_banks
    ram_banks := ram_banks }

/-- MBC1::read. `ram_bank << 5` is a u8 shift (`* 32 % 256`); bank masks are
`rom_banks - 1` and `ram_banks - 1` with wrapping u8 subtraction. Reads past
the end of the ROM/RAM vector return `None` (the bus turns that into a
panic). -/
def MBC1.read (m : MBC1) (addr : Nat) : Option Nat :=
  if addr ≤ 0x3FFF then
    let effective_bank :=
      match m.mode with
      | .Rom => 0
      | .Ram => (m.ram_bank * 32 % 256) &&& wsub8 m.rom_banks 1
    let rom_addr := effective_bank * 0x4000 + addr
    if rom_addr < m.rom.len then some (m.rom.data rom_addr) else none
  else if addr ≤ 0x7FFF then
    let effective_bank :=
      (match m.mode with
       | .Rom => m.rom_bank ||| (m.ram_bank * 32 % 256)
       | .Ram => m.rom_bank) &&& wsub8 m.rom_banks 1
    let rom_addr := effective_bank * 0x4000 + (addr - 0x4000)
    if rom_addr < m.rom.len then some (m.rom.data rom_addr) else none
  else if 0xA000 ≤ addr ∧ addr ≤ 0xBFFF then
    if !m.ram_enabled then some 0xFF
    else
      let effective_bank :=
        match m.mode with
        | .Rom => 0
        | .Ram => m.ram_bank &&& wsub8 m.ram_banks 1
      let ram_addr := effective_bank * 0x2000 + (addr - 0xA000)
      if ram_addr < m.ram.len then some (m.ram.data ram_addr) else none
  else none

/-- MBC1::write. Note the RAM-enable test is `(value & 0x0A) == 0x0A`,
not a test of the whole low nibble. -/
def MBC1.write (m : MBC1) (addr v : Nat) : MBC1 :=
  if addr ≤ 0x1FFF then
    { m with ram_enabled := (v &&& 0x0A) = 0x0A }
  else if addr ≤ 0x3FFF then
    let bank := v &&& 0x1F
    let bank := if bank = 0 then 1 else bank
    { m with rom_bank := bank }
  else if addr ≤ 0x5FFF then
    { m with ram_bank := v &&& 0x03 }
  else if addr ≤ 0x7FFF then
    { m with mode := if v &&& 0x01 = 0 then MBC1Mode.Rom else MBC1Mode.Ram }
  else if 0xA000 ≤ addr ∧ addr ≤ 0xBFFF then
    if !m.ram_enabled then m
    else
      let effective_bank :=
        match m.mode with
        | .Rom => 0
        | .Ram => m.ram_bank &&& wsub8 m.ram_banks 1
      let ram_addr := effective_bank * 0x2000 + (addr - 0xA000)
      if ram_addr < m.ram.len then
        { m with ram := ⟨m.ram.len, fun i => if i = ram_addr then v else m.ram.data i⟩ }
      else m
  else m

/-- The installed mapper (`Box<dyn MemoryBankController>`), restricted to the
two variants `create_mbc` can produce. -/
inductive Mbc where
  | noMbc (m : NoMBC)
  | mbc1 (m : MBC1)

/-- Mapper read dispatch. -/
def Mbc.read (m : Mbc) (addr : Nat) : Option Nat :=
  match m with
  | .noMbc n => n.read addr
  | .mbc1 n => n.read addr

/-- Mapper write dispatch. -/
def Mbc.write (m : Mbc) (addr v : Nat) : Mbc :=
  match m with
  | .noMbc n => .noMbc (n.write addr v)
  | .mbc1 n => .mbc1 (n.write addr v)

/-- Mapper kind, from src/memory/cart/cart_types.rs (`MapperType`). -/
inductive MapperType where
  | None
  | MBC1
  | MBC2
  | MMM01
  | MBC3
  | MBC5
  | MBC6
  | MBC7
  | PocketCamera
  | BandaiTama5
  | HuC3
  | HuC1
deriving DecidableEq, Repr

/-- Cartridge construction errors, from src/memory/cart/cart_types.rs
(`CartError`). -/
inductive CartError where
  | MissingCart (path : String)
  | InvalidRomSize (code : Nat)
  | InvalidRamSize (code : Nat)
  | InvalidCartType (code : Nat)
  | UnsupportedMapper (kind : MapperType)
  | InvalidLogo
  | HeaderCheckSumFailure (computed_checksum expected_checksum : Nat)
  | GlobalCheckSumFailure (computed_checksum expected_checksum : Nat)
  | LoadError
deriving DecidableEq, Repr

/-- Cartridge type flags, from src/memory/cart/cart_types.rs (`CartType`). -/
structure CartType where
  mapper : MapperType
  ram : Bool
  battery : Bool
  timer : Bool
  rumble : Bool
  sensor : Bool
deriving DecidableEq, Repr

/-- The all-false `CartType` that `CartType::new` starts from. -/
def CartType.base : CartType :=
  { mapper := .None, ram := false, battery := false, timer := false,
    rumble := false, sensor := false }

/-- CartType::new — decodes header byte 0x0147. -/
def CartType.new (code : Nat) : Except CartError CartType :=
  match code with
  | 0x00 => .ok CartType.base
  | 0x01 => .ok { CartType.base with mapper := .MBC1 }
  | 0x02 => .ok { CartType.base with mapper := .MBC1, ram := true }
  | 0x03 => .ok { CartType.base with mapper := .MBC1, ram := true, battery := true }
  | 0x05 => .ok { CartType.base with mapper := .MBC2 }
  | 0x06 => .ok { CartType.base with mapper := .MBC2, battery := true }
  | 0x08 => .ok { CartType.base with ram := true }
  | 0x09 => .ok { CartType.base with ram := true, battery := true }
  | 0x0B => .ok { CartType.base with mapper := .MMM01 }
  | 0x0C => .ok { CartType.base with mapper := .MMM01, ram := true }
  | 0x0D => .ok { CartType.base with mapper := .MMM01, ram := true, battery := true }
  | 0x0F => .ok { CartType.base with mapper := .MBC3, timer := true, battery := true }
  | 0x10 => .ok { CartType.base with mapper := .MBC3, timer := true, ram := true, battery := true }
  | 0x11 => .ok { CartType.base with mapper := .MBC3 }
  | 0x12 => .ok { CartType.base with mapper := .MBC3, ram := true }
  | 0x13 => .ok { CartType.base with mapper := .MBC3, ram := true, battery := true }
  | 0x19 => .ok { CartType.base with mapper := .MBC5 }
  | 0x1A => .ok { CartType.base with mapper := .MBC5, ram := true }
  | 0x1B => .ok { CartType.base with mapper := .MBC5, ram := true, battery := true }
  | 0x1C => .ok { CartType.base with mapper := .MBC5, rumble := true }
  | 0x1D => .ok { CartType.base with mapper := .MBC5, rumble := true, ram := true }
  | 0x1E => .ok { CartType.base with mapper := .MBC5, rumble := true, ram := true, battery := true }
  | 0x20 => .ok { CartType.base with mapper := .MBC6 }
  | 0x22 => .ok { CartType.base with mapper := .MBC7, sensor := true, rumble := true, ram := true, battery := true }
  | 0xFC => .ok { CartType.base with mapper := .PocketCamera }
  | 0xFD => .ok { CartType.base with mapper := .BandaiTama5 }
  | 0xFE => .ok { CartType.base with mapper := .HuC3 }
  | 0xFF => .ok { CartType.base with mapper := .HuC1, ram := true, battery := true }
  | _ => .error (.InvalidCartType code)

/-- get_rom_size, from src/memory/cart/cart_header.rs — codes 0x00..=0x08 give
`(0x8000 * (1 << code), 2u8 << code)`; the bank count is truncated to u8. -/
def get_rom_size (code : Nat) : Except CartError (Nat × Nat) :=
  if code ≤ 0x08 then .ok (0x8000 * (1 <<< code), 2 <<< code % 256)
  else .error (.InvalidRomSize code)

/-- get_ram_size, from src/memory/cart/cart_header.rs. -/
def get_ram_size (code : Nat) : Except CartError (Nat × Nat) :=
  match code with
  | 0x00 => .ok (0, 0)
  | 0x02 => .ok (0x2000, 1)
  | 0x03 => .ok (0x8000, 4)
  | 0x04 => .ok (0x20000, 16)
  | 0x05 => .ok (0x10000, 8)
  | _ => .error (.InvalidRamSize code)

/-- The 48-byte Nintendo logo constant (`NINTENDO_LOGO`). -/
def NINTENDO_LOGO : List Nat :=
  [0xCE, 0xED, 0x66, 0x66, 0xCC, 0x0D, 0x00, 0x0B, 0x03, 0x73, 0x00, 0x83,
   0x00, 0x0C, 0x00, 0x0D, 0x00, 0x08, 0x11, 0x1F, 0x88, 0x89, 0x00, 0x0E,
   0xDC, 0xCC, 0x6E, 0xE6, 0xDD, 0xDD, 0xD9, 0x99, 0xBB, 0xBB, 0x67, 0x63,
   0x6E, 0x0E, 0xEC, 0xCC, 0xDD, 0xDC, 0x99, 0x9F, 0xBB, 0xB9, 0x33, 0x3E]

/-- validate_nintendo_logo — compares rom[0x0104..=0x0133] against the
constant. -/
def validate_nintendo_logo (rom : ByteVec) : Except CartError Unit :=
  if (List.range 48).all (fun i => rom.data (0x0104 + i) == NINTENDO_LOGO.getD i 0)
  then .ok () else .error .InvalidLogo

/-- validate_header_checksum — `checksum = checksum - byte - 1` (wrapping u8)
over rom[0x0134..=0x014C], compared against rom[0x014D]. -/
def validate_header_checksum (rom : ByteVec) : Except CartError Unit :=
  let computed := (List.range 0x19).foldl
    (fun c i => wsub8 (wsub8 c (rom.data (0x0134 + i))) 1) 0
  let expected := rom.data 0x014D
  if computed ≠ expected then .error (.HeaderCheckSumFailure computed expected)
  else .ok ()

/-- Cartridge, from src/memory/cart/mod.rs (`Cart`). The `licensee` display
string is omitted: `get_licensee` is a pure lookup whose result is only
formatted, never branched on. -/
structure Cart where
  mbc : Mbc
  title : List Nat
  cgb : Bool
  cart_type : CartType
  sgb : Bool
  rom_size : Nat
  rom_banks : Nat
  ram_size : Nat
  ram_banks : Nat
  destination : Bool
  version : Nat

/-- create_mbc, from src/memory/mbc.rs — only the no-mapper and MBC1
variants exist; the rest are `UnsupportedMapper`. -/
def create_mbc (mapper : MapperType) (rom : ByteVec)
    (ram_size rom_banks ram_banks : Nat) : Except CartError Mbc :=
  match mapper with
  | .None => .ok (.noMbc ⟨rom⟩)
  | .MBC1 => .ok (.mbc1 (MBC1.new rom ram_size rom_banks ram_banks))
  | k => .error (.UnsupportedMapper k)

/-- Cart::new, from src/memory/cart/mod.rs. `none` marks the panics of the
raw indexing (`data[0x0148]` on a short buffer, and the copy loop
`rom[i] = data[i]` when the buffer is longer than the decoded ROM size);
`some (Except ...)` is the function's normal `Result`. Validation order is
the source's: ROM size, buffer copy, title, RAM size, header checksum,
logo, cartridge type, mapper construction. -/
def Cart.new (data : ByteVec) : Option (Except CartError Cart) :=
  if 0x0148 < data.len then
    match get_rom_size (data.data 0x0148) with
    | .error e => some (.error e)
    | .ok (rom_size, rom_banks) =>
      if rom_size < data.len then none
      else
        let rom : ByteVec := ⟨rom_size, fun i => if i < data.len then data.data i else 0⟩
        let title := ((List.range 16).map (fun i => rom.data (0x0134 + i))).takeWhile (fun b => b ≠ 0)
        match get_ram_size (rom.data 0x0149) with
        | .error e => some (.error e)
        | .ok (ram_size, ram_banks) =>
          match validate_header_checksum rom with
          | .error e => some (.error e)
          | .ok _ =>
            match validate_nintendo_logo rom with
            | .error e => some (.error e)
            | .ok _ =>
              match CartType.new (rom.data 0x0147) with
              | .error e => some (.error e)
              | .ok cart_type =>
                let cgb := (rom.data 0x0143 &&& 0x80) != 0
                let sgb := rom.data 0x0146 == 0x03
                let destination := rom.data 0x014A == 0x01
                let version := rom.data 0x014C
                match create_mbc cart_type.mapper rom ram_size rom_banks ram_banks with
                | .error e => some (.error e)
                | .ok mbc =>
                  some (.ok
                    { mbc := mbc
                      title := title
                      cgb := cgb
                      cart_type := cart_type
                      sgb := sgb
                      rom_size := rom_size
                      rom_banks := rom_banks
                      ram_size := ram_size
                      ram_banks := ram_banks
                      destination := destination
                      version := version })
  else none

/-- Cart::read — delegates to the mapper. -/
def Cart.read (c : Cart) (addr : Nat) : Option Nat := c.mbc.read addr

/-- Cart::write — delegates to the mapper. -/
def Cart.write (c : Cart) (addr v : Nat) : Cart :=
  { c with mbc := c.mbc.write addr v }

/-- Pointwise update of a byte function (an array store). -/
def upd1 (f : Nat → Nat) (i v : Nat) : Nat → Nat :=
  fun j => if j = i then v else f j

/-- Pointwise update of a banked byte function (a 2-d array store). -/
def upd2 (f : Nat → Nat → Nat) (bank i v : Nat) : Nat → Nat → Nat :=
  fun x y => if x = bank ∧ y = i then v else f x y

/-- Memory bus, from src/memory/mod.rs (`MemoryBus`). Work RAM, I/O and
high RAM are embedded as total byte functions. -/
structure MemoryBus where
  cart : Cart
  ppu : Ppu
  v_ram_bank : Nat
  w_ram : Nat → Nat → Nat
  w_ram_bank : Nat
  io_registers : Nat → Nat
  h_ram : Nat → Nat
  ie : Nat

/-- MemoryBus::new. -/
def MemoryBus.new (cart : Cart) : MemoryBus :=
  { cart := cart
    ppu := Ppu.new
    v_ram_bank := 0
    w_ram := fun _ _ => 0
    w_ram_bank := 1
    io_registers := fun _ => 0
    h_ram := fun _ => 0
    ie := 0 }

/-- MemoryBus::read. The cartridge windows (0x0000–0x7FFF and
0xA000–0xBFFF) call `cart.read(addr).unwrap_or_else(|| panic!(...))`, so a
`None` from the mapper aborts: embedded as `none`. Addresses are u16. -/
def MemoryBus.read (b : MemoryBus) (addr : Nat) : Option Nat :=
  if addr ≤ 0x7FFF ∨ (0xA000 ≤ addr ∧ addr ≤ 0xBFFF) then
    b.cart.read addr
  else if addr ≤ 0x9FFF then some (b.ppu.read_vram addr)
  else if addr ≤ 0xCFFF then some (b.w_ram 0 (addr - 0xC000))
  else if addr ≤ 0xDFFF then some (b.w_ram b.w_ram_bank (addr - 0xD000))
  else if addr ≤ 0xEFFF then some (b.w_ram 0 (addr - 0xE000))
  else if addr ≤ 0xFDFF then some (b.w_ram b.w_ram_bank (addr - 0xF000))
  else if addr ≤ 0xFE9F then some (b.ppu.read_oam addr)
  else if addr ≤ 0xFEFF then some 0xFF
  else if addr ≤ 0xFF7F then
    if 0xFF40 ≤ addr ∧ addr ≤ 0xFF4B then some (b.ppu.registers.read_register addr)
    else some (b.io_registers (addr - 0xFF00))
  else if addr ≤ 0xFFFE then some (b.h_ram (addr - 0xFF80))
  else some b.ie

/-- MemoryBus::write. A write to 0x0000–0x7FFF only emits a debug log —
the cartridge mapper is NOT invoked; a write to echo RAM 0xE000–0xFDFF
likewise only logs; a write to the unusable region 0xFEA0–0xFEFF executes
`panic!`, embedded as `none`. A write to 0xFF50 returns
`Some(CpuStatus::Stopped)` without modifying the bus. -/
def MemoryBus.write (b : MemoryBus) (addr v : Nat) :
    Option (MemoryBus × Option CpuStatus) :=
  if addr ≤ 0x7FFF then some (b, none)
  else if addr ≤ 0x9FFF then some ({ b with ppu := b.ppu.write_vram addr v }, none)
  else if addr ≤ 0xBFFF then some ({ b with cart := b.cart.write addr v }, none)
  else if addr ≤ 0xCFFF then
    some ({ b with w_ram := upd2 b.w_ram 0 (addr - 0xC000) v }, none)
  else if addr ≤ 0xDFFF then
    some ({ b with w_ram := upd2 b.w_ram b.w_ram_bank (addr - 0xD000) v }, none)
  else if addr ≤ 0xFDFF then some (b, none)
  else if addr ≤ 0xFE9F then some ({ b with ppu := b.ppu.write_oam addr v }, none)
  else if addr ≤ 0xFEFF then none
  else if addr ≤ 0xFF7F then
    if 0xFF40 ≤ addr ∧ addr ≤ 0xFF4B then
      some ({ b with ppu := { b.ppu with registers := b.ppu.registers.write_register addr v } }, none)
    else if addr = 0xFF4F then some ({ b with v_ram_bank := v &&& 1 }, none)
    else if addr = 0xFF50 then some (b, some .Stopped)
    else if addr = 0xFF70 then some ({ b with w_ram_bank := v &&& 0x07 }, none)
    else some ({ b with io_registers := upd1 b.io_registers (addr - 0xFF00) v }, none)
  else if addr ≤ 0xFFFE then some ({ b with h_ram := upd1 b.h_ram (addr - 0xFF80) v }, none)
  else some ({ b with ie := v }, none)

/-- MemoryBus::request_interrupt — ORs the interrupt bit into IF (0xFF0F),
discarding the status returned by the write. -/
def MemoryBus.request_interrupt (b : MemoryBus) (i : Interrupt) : Option MemoryBus :=
  match b.read 0xFF0F with
  | none => none
  | some flags =>
    match b.write 0xFF0F (flags ||| i.code) with
    | none => none
    | some (b2, _) => some b2

/-- Load targets, from src/cpu/instructions.rs (`LoadTarget`). -/
inductive LoadTarget where
  | A | BC | DE | HL | SP | BCAddr | DEAddr | HLAddrInc | HLAddrDec
  | HLAddr | B | D | H | PCAddr | PC16Addr | C | E | L
deriving DecidableEq, Repr

/-- Load sources, from src/cpu/instructions.rs (`LoadSource`). -/
inductive LoadSource where
  | PCAddr | HL | SPE | BCAddr | DEAddr | HLAddrInc | HLAddrDec | SP
  | A | PC | PC16 | B | C | D | E | H | L | HLAddr
deriving DecidableEq, Repr

/-- Increment targets (`IncrementTarget`). -/
inductive IncrementTarget where
  | BC | DE | HL | SP | B | D | H | HLAddr | C | E | L | A
deriving DecidableEq, Repr

/-- Decrement targets (`DecrementTarget`). -/
inductive DecrementTarget where
  | B | D | H | HLAddr | BC | DE | HL | SP | C | E | L | A
deriving DecidableEq, Repr

/-- Jump conditions (`JumpCondition`). -/
inductive JumpCondition where
  | None | Z | C | NZ | NC
deriving DecidableEq, Repr

/-- Add targets (`AddTarget`). -/
inductive AddTarget where
  | SP | A | HL
deriving DecidableEq, Repr

/-- Add sources (`AddSource`). -/
inductive AddSource where
  | BC | DE | HL | SP | A | B | C | D | E | H | L | PC | PCe | HLAddr
deriving DecidableEq, Repr

/-- Add-with-carry sources (`AddCarrySource`). -/
inductive AddCarrySource where
  | PC | A | B | C | D | E | H | L | HLAddr
deriving DecidableEq, Repr

/-- Subtract-with-carry sources (`SubtractCarrySource`). -/
inductive SubtractCarrySource where
  | A | B | C | D | E | H | L | HLAddr | PC
deriving DecidableEq, Repr

/-- Subtract sources (`SubtractSource`). -/
inductive SubtractSource where
  | A | B | C | D | E | H | PC | L | HLAddr
deriving DecidableEq, Repr

/-- AND sources (`AndSource`). -/
inductive AndSource where
  | PC | A | B | C | D | E | H | L | HLAddr
deriving DecidableEq, Repr

/-- Compare sources (`CompareSource`). -/
inductive CompareSource where
  | A | B | C | D | E | H | L | HLAddr | PC
deriving DecidableEq, Repr

/-- XOR sources (`XOrSource`). -/
inductive XOrSource where
  | PC | A | B | C | D | E | H | L | HLAddr
deriving DecidableEq, Repr

/-- OR sources (`OrSource`). -/
inductive OrSource where
  | PC | A | B | C | D | E | H | L | HLAddr
deriving DecidableEq, Repr

/-- Pop targets (`PopTarget`). -/
inductive PopTarget where
  | BC | DE | HL | AF
deriving DecidableEq, Repr

/-- Push targets (`PushTarget`). -/
inductive PushTarget where
  | BC | DE | HL | AF
deriving DecidableEq, Repr

/-- LDH targets (`LoadAccumulatorTarget`). -/
inductive LoadAccumulatorTarget where
  | PCAddr | A | CAddr
deriving DecidableEq, Repr

/-- LDH sources (`LoadAccumulatorSource`). -/
inductive LoadAccumulatorSource where
  | A | PCAddr | CAddr
deriving DecidableEq, Repr

/-- Bitwise operand (`BitwiseSource`). -/
inductive BitwiseSource where
  | B | C | D | E | H | L | HLAddr | A
deriving DecidableEq, Repr

/-- Instructions, from src/cpu/instructions.rs (`Instruction`). -/
inductive Instruction where
  | Nop
  | Stop
  | Halt
  | DisableInterrupts
  | EnableInterrupts
  | Add (t : AddTarget) (s : AddSource)
  | AddCarry (s : AddCarrySource)
  | Subtract (s : SubtractSource)
  | SubtractCarry (s : SubtractCarrySource)
  | And (s : AndSource)
  | Or (s : OrSource)
  | XOr (s : XOrSource)
  | Load (t : LoadTarget) (s : LoadSource)
  | LoadAccumulator (t : LoadAccumulatorTarget) (s : LoadAccumulatorSource)
  | Increment (t : IncrementTarget)
  | Decrement (t : DecrementTarget)
  | RotateLeftCircular (s : BitwiseSource)
  | RotateLeft (s : BitwiseSource)
  | DecimalAdjustAccumulator
  | SetCarryFlag
  | JumpRelative (c : JumpCondition)
  | Compare (s : CompareSource)
  | RotateRightCircular (s : BitwiseSource)
  | RotateRight (s : BitwiseSource)
  | ShiftRightArithmetic (s : BitwiseSource)
  | ShiftRightLogical (s : BitwiseSource)
  | ShiftLeftArithmetic (s : BitwiseSource)
  | Swap (s : BitwiseSource)
  | Bit (n : Nat) (s : BitwiseSource)
  | ComplementAccumulator
  | ComplementCarryFlag
  | Return (c : JumpCondition)
  | ReturnInterrupt
  | Jump (c : JumpCondition)
  | JumpHL
  | Pop (t : PopTarget)
  | Push (t : PushTarget)
  | Call (c : JumpCondition)
  | Restart (addr : Nat)
  | CB
deriving DecidableEq, Repr

set_option maxRecDepth 4096

/-- Instruction::get_instruction — decodes a primary opcode byte into an
instruction and its machine-cycle count, arm for arm from the source match.
The eleven unassigned opcodes (0xD3, 0xDB, 0xDD, 0xE3, 0xE4, 0xEB, 0xEC,
0xED, 0xF4, 0xFC, 0xFD) execute `panic!("Unknown Instruction Code")` in the
source, embedded as `none`. -/
def Instruction.get_instruction (byte : Nat) : Option (Instruction × Nat) :=
  if byte = 0x00 then some (.Nop, 1)
  else if byte = 0x10 then some (.Stop, 2)
  else if byte = 0x01 then some (.Load .BC .PC16, 3)
  else if byte = 0x11 then some (.Load .DE .PC16, 3)
  else if byte = 0x21 then some (.Load .HL .PC16, 3)
  else if byte = 0x31 then some (.Load .SP .PC16, 3)
  else if byte = 0x02 then some (.Load .BCAddr .A, 2)
  else if byte = 0x12 then some (.Load .DEAddr .A, 2)
  else if byte = 0x22 then some (.Load .HLAddrInc .A, 2)
  else if byte = 0x32 then some (.Load .HLAddrDec .A, 2)
  else if byte = 0x03 then some (.Increment .BC, 2)
  else if byte = 0x13 then some (.Increment .DE, 2)
  else if byte = 0x23 then some (.Increment .HL, 2)
  else if byte = 0x33 then some (.Increment .SP, 2)
  else if byte = 0x04 then some (.Increment .B, 1)
  else if byte = 0x14 then some (.Increment .D, 1)
  else if byte = 0x24 then some (.Increment .H, 1)
  else if byte = 0x34 then some (.Increment .HLAddr, 2)
  else if byte = 0x05 then some (.Decrement .B, 1)
  else if byte = 0x15 then some (.Decrement .D, 1)
  else if byte = 0x25 then some (.Decrement .H, 1)
  else if byte = 0x35 then some (.Decrement .HLAddr, 2)
  else if byte = 0x06 then some (.Load .B .PC, 2)
  else if byte = 0x16 then some (.Load .D .PC, 2)
  else if byte = 0x26 then some (.Load .H .PC, 2)
  else if byte = 0x36 then some (.Load .HL .PC, 3)
  else if byte = 0x07 then some (.RotateLeftCircular .A, 1)
  else if byte = 0x17 then some (.RotateLeft .A, 1)
  else if byte = 0x27 then some (.DecimalAdjustAccumulator, 1)
  else if byte = 0x37 then some (.SetCarryFlag, 1)
  else if byte = 0x08 then some (.Load .PC16Addr .SP, 5)
  else if byte = 0x20 then some (.JumpRelative .NZ, 2)
  else if byte = 0x30 then some (.JumpRelative .NC, 2)
  else if byte = 0x18 then some (.JumpRelative .None, 2)
  else if byte = 0x28 then some (.JumpRelative .Z, 2)
  else if byte = 0x38 then some (.JumpRelative .C, 2)
  else if byte = 0x09 then some (.Add .HL .BC, 2)
  else if byte = 0x19 then some (.Add .HL .DE, 2)
  else if byte = 0x29 then some (.Add .HL .HL, 2)
  else if byte = 0x39 then some (.Add .HL .SP, 2)
  else if byte = 0x0a then some (.Load .A .BCAddr, 2)
  else if byte = 0x1a then some (.Load .A .DEAddr, 2)
  else if byte = 0x2a then some (.Load .A .HLAddrInc, 2)
  else if byte = 0x3a then some (.Load .A .HLAddrDec, 2)
  else if byte = 0x0b then some (.Decrement .BC, 2)
  else if byte = 0x1b then some (.Decrement .DE, 2)
  else if byte = 0x2b then some (.Decrement .HL, 2)
  else if byte = 0x3b then some (.Decrement .SP, 2)
  else if byte = 0x0c then some (.Increment .C, 1)
  else if byte = 0x1c then some (.Increment .E, 1)
  else if byte = 0x2c then some (.Increment .L, 1)
  else if byte = 0x3c then some (.Increment .A, 1)
  else if byte = 0x0d then some (.Decrement .C, 1)
  else if byte = 0x1d then some (.Decrement .E, 1)
  else if byte = 0x2d then some (.Decrement .L, 1)
  else if byte = 0x3d then some (.Decrement .A, 1)
  else if byte = 0x0e then some (.Load .C .PC, 2)
  else if byte = 0x1e then some (.Load .E .PC, 2)
  else if byte = 0x2e then some (.Load .L .PC, 2)
  else if byte = 0x3e then some (.Load .A .PC, 2)
  else if byte = 0x0f then some (.RotateRightCircular .A, 1)
  else if byte = 0x1f then some (.RotateRight .A, 1)
  else if byte = 0x2f then some (.ComplementAccumulator, 1)
  else if byte = 0x3f then some (.ComplementCarryFlag, 1)
  else if (0x40 ≤ byte ∧ byte ≤ 0x75) ∨ (0x77 ≤ byte ∧ byte ≤ 0x7f) then
    let target : LoadTarget :=
      if byte ≤ 0x47 then .B
      else if byte ≤ 0x4f then .C
      else if byte ≤ 0x57 then .D
      else if byte ≤ 0x5f then .E
      else if byte ≤ 0x67 then .H
      else if byte ≤ 0x6f then .L
      else if byte ≤ 0x77 then .HLAddr
      else .A
    let lo := byte &&& 0x0F
    let source : LoadSource :=
      if lo = 0x00 ∨ lo = 0x08 then .B
      else if lo = 0x01 ∨ lo = 0x09 then .C
      else if lo = 0x02 ∨ lo = 0x0a then .D
      else if lo = 0x03 ∨ lo = 0x0b then .E
      else if lo = 0x04 ∨ lo = 0x0c then .H
      else if lo = 0x05 ∨ lo = 0x0d then .L
      else if lo = 0x06 ∨ lo = 0x0e then .HLAddr
      else .A
    let cycles :=
      if 0x70 ≤ byte ∧ byte ≤ 0x77 then 2
      else if lo = 0x06 ∨ lo = 0x0e then 2
      else 1
    some (.Load target source, cycles)
  else if byte = 0x76 then some (.Halt, 1)
  else if 0x80 ≤ byte ∧ byte ≤ 0x87 then
    let source : AddSource :=
      match byte &&& 0x0f with
      | 0x00 => .B | 0x01 => .C | 0x02 => .D | 0x03 => .E
      | 0x04 => .H | 0x05 => .L | 0x06 => .HLAddr | _ => .A
    some (.Add .A source, if source == AddSource.HLAddr then 2 else 1)
  else if 0x88 ≤ byte ∧ byte ≤ 0x8f then
    let source : AddCarrySource :=
      match byte &&& 0x0f with
      | 0x08 => .B | 0x09 => .C | 0x0a => .D | 0x0b => .E
      | 0x0c => .H | 0x0d => .L | 0x0e => .HLAddr | _ => .A
    some (.AddCarry source, if source == AddCarrySource.HLAddr then 2 else 1)
  else if 0x90 ≤ byte ∧ byte ≤ 0x97 then
    let source : SubtractSource :=
      match byte &&& 0x0f with
      | 0x00 => .B | 0x01 => .C | 0x02 => .D | 0x03 => .E
      | 0x04 => .H | 0x05 => .L | 0x06 => .HLAddr | _ => .A
    some (.Subtract source, if source == SubtractSource.HLAddr then 2 else 1)
  else if 0x98 ≤ byte ∧ byte ≤ 0x9f then
    let source : SubtractCarrySource :=
      match byte &&& 0x0f with
      | 0x08 => .B | 0x09 => .C | 0x0a => .D | 0x0b => .E
      | 0x0c => .H | 0x0d => .L | 0x0e => .HLAddr | _ => .A
    some (.SubtractCarry source, if source == SubtractCarrySource.HLAddr then 2 else 1)
  else if 0xa0 ≤ byte ∧ byte ≤ 0xa7 then
    let source : AndSource :=
      match byte &&& 0x0f with
      | 0x00 => .B | 0x01 => .C | 0x02 => .D | 0x03 => .E
      | 0x04 => .H | 0x05 => .L | 0x06 => .HLAddr | _ => .A
    some (.And source, if source == AndSource.HLAddr then 2 else 1)
  else if 0xa8 ≤ byte ∧ byte ≤ 0xaf then
    let source : XOrSource :=
      match byte &&& 0x0f with
      | 0x08 => .B | 0x09 => .C | 0x0a => .D | 0x0b => .E
      | 0x0c => .H | 0x0d => .L | 0x0e => .HLAddr | _ => .A
    some (.XOr source, if source == XOrSource.HLAddr then 2 else 1)
  else if 0xb0 ≤ byte ∧ byte ≤ 0xb7 then
    let source : OrSource :=
      match byte &&& 0x0f with
      | 0x00 => .B | 0x01 => .C | 0x02 => .D | 0x03 => .E
      | 0x04 => .H | 0x05 => .L | 0x06 => .HLAddr | _ => .A
    some (.Or source, if source == OrSource.HLAddr then 2 else 1)
  else if 0xb8 ≤ byte ∧ byte ≤ 0xbf then
    let source : CompareSource :=
      match byte &&& 0x0f with
      | 0x08 => .B | 0x09 => .C | 0x0a => .D | 0x0b => .E
      | 0x0c => .H | 0x0d => .L | 0x0e => .HLAddr | _ => .A
    some (.Compare source, if source == CompareSource.HLAddr then 2 else 1)
  else if byte = 0xc0 then some (.Return .NZ, 2)
  else if byte = 0xd0 then some (.Return .NC, 2)
  else if byte = 0xc1 then some (.Pop .BC, 3)
  else if byte = 0xd1 then some (.Pop .DE, 3)
  else if byte = 0xe1 then some (.Pop .HL, 3)
  else if byte = 0xf1 then some (.Pop .AF, 3)
  else if byte = 0xc5 then some (.Push .BC, 3)
  else if byte = 0xd5 then some (.Push .DE, 3)
  else if byte = 0xe5 then some (.Push .HL, 3)
  else if byte = 0xf5 then some (.Push .AF, 3)
  else if byte = 0xc2 then some (.Jump .NZ, 3)
  else if byte = 0xd2 then some (.Jump .NC, 3)
  else if byte = 0xc3 then some (.Jump .None, 4)
  else if byte = 0xe0 then some (.LoadAccumulator .PCAddr .A, 3)
  else if byte = 0xf0 then some (.LoadAccumulator .A .PCAddr, 3)
  else if byte = 0xe2 then some (.LoadAccumulator .CAddr .A, 2)
  else if byte = 0xf2 then some (.LoadAccumulator .A .CAddr, 2)
  else if byte = 0xf3 then some (.DisableInterrupts, 1)
  else if byte = 0xc4 then some (.Call .NZ, 3)
  else if byte = 0xd4 then some (.Call .NC, 3)
  else if byte = 0xc6 then some (.Add .A .PC, 2)
  else if byte = 0xd6 then some (.Subtract .PC, 2)
  else if byte = 0xe6 then some (.And .PC, 2)
  else if byte = 0xf6 then some (.Or .PC, 2)
  else if byte = 0xc7 then some (.Restart 0x00, 4)
  else if byte = 0xd7 then some (.Restart 0x10, 4)
  else if byte = 0xe7 then some (.Restart 0x20, 4)
  else if byte = 0xf7 then some (.Restart 0x30, 4)
  else if byte = 0xc8 then some (.Return .Z, 2)
  else if byte = 0xd8 then some (.Return .C, 2)
  else if byte = 0xe8 then some (.Add .SP .E, 4)
  else if byte = 0xf8 then some (.Load .HL .SPE, 3)
  else if byte = 0xc9 then some (.Return .None, 4)
  else if byte = 0xd9 then some (.ReturnInterrupt, 4)
  else if byte = 0xe9 then some (.JumpHL, 1)
  else if byte = 0xf9 then some (.Load .SP .HL, 2)
  else if byte = 0xca then some (.Jump .Z, 3)
  else if byte = 0xda then some (.Jump .C, 3)
  else if byte = 0xea then some (.Load .PCAddr .A, 4)
  else if byte = 0xfa then some (.Load .A .PCAddr, 4)
  else if byte = 0xcb then some (.CB, 1)
  else if byte = 0xfb then some (.EnableInterrupts, 1)
  else if byte = 0xcc then some (.Call .Z, 3)
  else if byte = 0xdc then some (.Call .C, 3)
  else if byte = 0xcd then some (.Call .C, 6)
  else if byte = 0xce then some (.AddCarry .PC, 2)
  else if byte = 0xde then some (.SubtractCarry .PC, 2)
  else if byte = 0xee then some (.XOr .PC, 2)
  else if byte = 0xfe then some (.Compare .PC, 2)
  else if byte = 0xcf then some (.Restart 0x08, 4)
  else if byte = 0xdf then some (.Restart 0x18, 4)
  else if byte = 0xef then some (.Restart 0x28, 4)
  else if byte = 0xff then some (.Restart 0x38, 4)
  else none

/-- Instruction::get_cb_instruction — decodes a 0xCB-prefixed opcode byte.
Bytes 0x80..=0xFF (the RES/SET rows) fall into the source's
`panic!("Unknown Instruction")` arm, embedded as `none`. -/
def Instruction.get_cb_instruction (byte : Nat) : Option (Instruction × Nat) :=
  let lo := byte &&& 0x0F
  let source : BitwiseSource :=
    if lo = 0x00 ∨ lo = 0x08 then .B
    else if lo = 0x01 ∨ lo = 0x09 then .C
    else if lo = 0x02 ∨ lo = 0x0a then .D
    else if lo = 0x03 ∨ lo = 0x0b then .E
    else if lo = 0x04 ∨ lo = 0x0c then .H
    else if lo = 0x05 ∨ lo = 0x0d then .L
    else if lo = 0x06 ∨ lo = 0x0e then .HLAddr
    else .A
  let cycles := if source == BitwiseSource.HLAddr then 3 else 1
  if byte ≤ 0x07 then some (.RotateLeftCircular source, cycles)
  else if byte ≤ 0x0f then some (.RotateRightCircular source, cycles)
  else if byte ≤ 0x17 then some (.RotateLeft source, cycles)
  else if byte ≤ 0x1f then some (.RotateRight source, cycles)
  else if byte ≤ 0x27 then some (.ShiftLeftArithmetic source, cycles)
  else if byte ≤ 0x2f then some (.ShiftRightArithmetic source, cycles)
  else if byte ≤ 0x37 then some (.Swap source, cycles)
  else if byte ≤ 0x3f then some (.ShiftRightLogical source, cycles)
  else if byte ≤ 0x47 then some (.Bit 0 source, cycles)
  else if byte ≤ 0x4f then some (.Bit 1 source, cycles)
  else if byte ≤ 0x57 then some (.Bit 2 source, cycles)
  else if byte ≤ 0x5f then some (.Bit 3 source, cycles)
  else if byte ≤ 0x67 then some (.Bit 4 source, cycles)
  else if byte ≤ 0x6f then some (.Bit 5 source, cycles)
  else if byte ≤ 0x77 then some (.Bit 6 source, cycles)
  else if byte ≤ 0x7f then some (.Bit 7 source, cycles)
  else none

/-- Modelled from the spec: the register file module `src/cpu/registers.rs`
is missing from src/ — it is declared in src/cpu/mod.rs
(`pub mod registers;` / `use registers::Register;`) and its methods are
called throughout src/cpu/mod.rs and src/cpu/execute.rs, but the file itself
is not present. Per the spec (§3, §4.A): eight 8-bit registers exposed as
four 16-bit pairs AF, BC, DE, HL; F holds the flags in bits 7..4 and a write
to F masks the low nibble to zero, hence a write to AF silently clears the
low nibble of the passed value. All fields are u16 pair values. -/
structure Register where
  af : Nat
  bc : Nat
  de : Nat
  hl : Nat

/-- Modelled from the spec: fresh register file (reset overwrites it). -/
def Register.new : Register := ⟨0, 0, 0, 0⟩

/-- Modelled from the spec: F is the low byte of AF. -/
def Register.get_f (r : Register) : Nat := r.af % 256

/-- Modelled from the spec: a write to F masks the low nibble to zero
(spec §4.A). -/
def Register.set_f (r : Register) (v : Nat) : Register :=
  { r with af := (r.af &&& 0xFF00) ||| (v &&& 0xF0) }

/-- Modelled from the spec: A is the high byte of AF. -/
def Register.get_a (r : Register) : Nat := (r.af >>> 8) % 256

/-- Modelled from the spec: a write to A replaces the high byte of AF. -/
def Register.set_a (r : Register) (v : Nat) : Register :=
  { r with af := (r.af &&& 0x00FF) ||| ((v % 256) <<< 8) }

/-- Modelled from the spec: read of the 16-bit pair AF. -/
def Register.get_af (r : Register) : Nat := r.af

/-- Modelled from the spec: a 16-bit write to AF masks the low nibble of the
passed value to zero (spec §4.A requires this masking). -/
def Register.set_af (r : Register) (v : Nat) : Register :=
  { r with af := v &&& 0xFFF0 }

/-- Modelled from the spec: write of the 16-bit pair BC. -/
def Register.set_bc (r : Register) (v : Nat) : Register := { r with bc := v }

/-- Modelled from the spec: write of the 16-bit pair DE. -/
def Register.set_de (r : Register) (v : Nat) : Register := { r with de := v }

/-- Modelled from the spec: write of the 16-bit pair HL. -/
def Register.set_hl (r : Register) (v : Nat) : Register := { r with hl := v }

/-- CPU state, from src/cpu/mod.rs (`Cpu`). `program_counter` and
`stack_pointer` are u16; `step_count` is u8. -/
structure Cpu where
  status : CpuStatus
  register : Register
  program_counter : Nat
  stack_pointer : Nat
  memory : MemoryBus
  step_count : Nat
  instruction : Instruction
  ime : Bool
  ime_next : Bool

/-- Cpu::pop, from src/cpu/execute.rs — reads two bytes at SP (little
endian), advances SP by 2 and stores into the 16-bit target; POP AF goes
through `Register::set_af`. `none` marks a panicking bus read. -/
def Cpu.pop (c : Cpu) (target : PopTarget) : Option Cpu :=
  match c.memory.read c.stack_pointer with
  | none => none
  | some lo =>
    let sp1 := (c.stack_pointer + 1) % 65536
    match c.memory.read sp1 with
    | none => none
    | some hi =>
      let n := lo ||| (hi <<< 8)
      let reg :=
        match target with
        | .BC => c.register.set_bc n
        | .DE => c.register.set_de n
        | .HL => c.register.set_hl n
        | .AF => c.register.set_af n
      some { c with stack_pointer := (sp1 + 1) % 65536, register := reg }

/-- Cpu::process_instruction, from src/cpu/mod.rs — resets `step_count` to 0
and dispatches on the current instruction. Only the arms whose bodies are
inline in src/cpu/mod.rs (Nop, CB, EI, DI, Halt, Stop) and the `pop` handler
from src/cpu/execute.rs are embedded; the remaining handlers live in
src/cpu/execute.rs and are not needed by the verified claims, so dispatching
to them is embedded as `none` (not modelled). -/
def Cpu.process_instruction (c : Cpu) : Option Cpu :=
  let c := { c with step_count := 0 }
  match c.instruction with
  | .Nop => some c
  | .CB =>
    match c.memory.read c.program_counter with
    | none => none
    | some b =>
      match Instruction.get_cb_instruction b with
      | none => none
      | some (instr, cycles) =>
        some { c with
               instruction := instr
               step_count := cycles
               program_counter := (c.program_counter + 1) % 65536 }
  | .EnableInterrupts => some { c with ime := true }
  | .DisableInterrupts => some { c with ime := false }
  | .Halt => some { c with status := .Halted }
  | .Stop =>
    some { c with
           program_counter := (c.program_counter + 1) % 65536
           status := .Stopped }
  | .Pop target => c.pop target
  | _ => none

/-- Cpu::step, from src/cpu/mod.rs. A no-op when status is Errored or
Stopped; transfers the delayed `ime_next` latch; when `step_count` is 0,
fetches and decodes the byte at PC (a decode of an unassigned opcode panics:
`none`); then either burns a cycle (`step_count > 1`) or executes. There is
NO interrupt-servicing logic: the source contains only the comment
`// handle interrupts` at that point. -/
def Cpu.step (c : Cpu) : Option Cpu :=
  if c.status = .Errored ∨ c.status = .Stopped then some c
  else
    let c := if c.ime_next then { c with ime := true, ime_next := false } else c
    let fetched : Option Cpu :=
      if c.step_count = 0 then
        match c.memory.read c.program_counter with
        | none => none
        | some b =>
          match Instruction.get_instruction b with
          | none => none
          | some (instr, cycles) =>
            some { c with
                   instruction := instr
                   step_count := cycles
                   program_counter := (c.program_counter + 1) % 65536 }
      else some c
    match fetched with
    | none => none
    | some c =>
      if c.step_count > 1 then some { c with step_count := c.step_count - 1 }
      else c.process_instruction

/-
Concrete fixtures used to evaluate the embedded code on specific inputs.
-/

/-- A 32 KiB buffer of zero bytes carrying the Nintendo logo at
0x0104–0x0133 and the byte `chk` at the header-checksum slot 0x014D. -/
def headerTestData (chk : Nat) : ByteVec :=
  ⟨0x8000, fun i =>
    if 0x0104 ≤ i ∧ i ≤ 0x0133 then NINTENDO_LOGO.getD (i - 0x0104) 0
    else if i = 0x014D then chk
    else 0⟩

/-- Whether cartridge construction succeeded (no panic, no error). -/
def isOkCart : Option (Except CartError Cart) → Bool
  | some (.ok _) => true
  | _ => false

/-- A 128 KiB (8-bank) ROM image whose byte at offset 0x4000 is 0x11 and
whose byte at offset 0xC000 is 0x22, zero elsewhere. -/
def mbc1TestRom : ByteVec :=
  ⟨0x20000, fun a => if a = 0x4000 then 0x11 else if a = 0xC000 then 0x22 else 0⟩

/-- An MBC1 cartridge over `mbc1TestRom` with no external RAM. -/
def mbc1TestCart : Cart :=
  { mbc := .mbc1 (MBC1.new mbc1TestRom 0 8 0)
    title := []
    cgb := false
    cart_type := { CartType.base with mapper := .MBC1 }
    sgb := false
    rom_size := 0x20000
    rom_banks := 8
    ram_size := 0
    ram_banks := 0
    destination := false
    version := 0 }

/-- A fresh bus over the MBC1 test cartridge. -/
def mbc1TestBus : MemoryBus := MemoryBus.new mbc1TestCart

/-- A 32 KiB no-mapper cartridge of zero bytes (no external RAM). -/
def noMbcTestCart : Cart :=
  { mbc := .noMbc ⟨⟨0x8000, fun _ => 0⟩⟩
    title := []
    cgb := false
    cart_type := CartType.base
    sgb := false
    rom_size := 0x8000
    rom_banks := 2
    ram_size := 0
    ram_banks := 0
    destination := false
    version := 0 }

/-- A fresh bus over the no-mapper test cartridge. -/
def noMbcTestBus : MemoryBus := MemoryBus.new noMbcTestCart

/-- A bus with a pending VBlank interrupt: IF (io register 0x0F) = 0x01 and
IE = 0x01. -/
def cpuTestBus : MemoryBus :=
  { MemoryBus.new noMbcTestCart with
    io_registers := fun i => if i = 0x0F then 0x01 else 0
    ie := 0x01 }

/-- A running CPU with IME set, a pending enabled VBlank interrupt
(IE & IF = 0x01) and PC at 0x0100 where the ROM holds opcode 0x00 (NOP). -/
def cpuTest : Cpu :=
  { status := .Running
    register := Register.new
    program_counter := 0x0100
    stack_pointer := 0xFFFE
    memory := cpuTestBus
    step_count := 0
    instruction := .Nop
    ime := true
    ime_next := false }

/-- The test CPU frozen in the Errored status. -/
def cpuErrored : Cpu := { cpuTest with status := .Errored }

/-- The test CPU with SP pointing into work RAM (both stack bytes read 0). -/
def cpuPopTest : Cpu := { cpuTest with stack_pointer := 0xC000 }

/-- The eleven unassigned primary opcodes. -/
def unassignedOpcodes : List Nat :=
  [0xD3, 0xDB, 0xDD, 0xE3, 0xE4, 0xEB, 0xEC, 0xED, 0xF4, 0xFC, 0xFD]

/-- An MBC1 mapper with 8 KiB of external RAM holding 0x42 everywhere,
currently disabled. -/
def mbc1RamTest : MBC1 :=
  { rom := ⟨0x8000, fun _ => 0⟩
    ram := ⟨0x2000, fun _ => 0x42⟩
    rom_bank := 1
    ram_bank := 0
    ram_enabled := false
    mode := .Rom
    rom_banks := 2
    ram_banks := 1 }

/-- A PPU one dot before the end of HBlank on line 0, with LYC = 1 and all
STAT interrupt enables (including bit 6) clear. -/
def ppuHBlankTest : Ppu :=
  { Ppu.new with
    mode := .HBlank
    dots := 203
    scanline := 0
    registers := { PpuRegisters.new with lyc := 1 } }

/-- The HBlank test PPU at the end of HBlank on line 143, about to enter
VBlank. -/
def ppuVBlankEntryTest : Ppu :=
  { ppuHBlankTest with scanline := 143, dots := 204 }

/-- The HBlank test PPU moved to VBlank mode. -/
def ppuVBlankTest : Ppu := { ppuHBlankTest with mode := .VBlank }

/-
Theorems.
-/

/-- A number whose four low bits are clear is divisible by 16. -/
theorem lowNibble_mod16 (n : Nat) (h : ∀ i, i < 4 → n.testBit i = false) :
    n % 16 = 0 := by
  have h16 : (16 : Nat) = 2 ^ 4 := rfl
  rw [h16]
  apply Nat.zero_of_testBit_eq_false
  intro i
  rw [Nat.testBit_mod_two_pow]
  by_cases hi : i < 4
  · simp [hi, h i hi]
  · simp [hi]

/-- The low byte of `(a &&& 0xFF00) ||| (v &&& 0xF0)` has a zero low
nibble. -/
theorem setF_mod16 (a v : Nat) :
    (((a &&& 0xFF00) ||| (v &&& 0xF0)) % 256) % 16 = 0 := by
  rw [Nat.mod_mod_of_dvd _ (by norm_num : (16 : ℕ) ∣ 256)]
  apply lowNibble_mod16
  intro i hi
  rw [Nat.testBit_lor, Nat.testBit_land, Nat.testBit_land]
  have h1 : Nat.testBit 0xFF00 i = false := by interval_cases i <;> decide
  have h2 : Nat.testBit 0xF0 i = false := by interval_cases i <;> decide
  simp [h1, h2]

/-- The low byte of `v &&& 0xFFF0` has a zero low nibble. -/
theorem setAF_mod16 (v : Nat) : ((v &&& 0xFFF0) % 256) % 16 = 0 := by
  rw [Nat.mod_mod_of_dvd _ (by norm_num : (16 : ℕ) ∣ 256)]
  apply lowNibble_mod16
  intro i hi
  rw [Nat.testBit_land]
  have h1 : Nat.testBit 0xFFF0 i = false := by interval_cases i <;> decide
  simp [h1]

/-- Writing the STAT mode bits (1..0) preserves any mask disjoint from
them. -/
theorem set_mode_preserves_bit (s code msk : Nat) (h1 : 0xFC &&& msk = msk)
    (h2 : code &&& msk = 0) :
    ((s &&& 0xFC) ||| code) &&& msk = s &&& msk := by
  rw [Nat.and_distrib_right, Nat.and_assoc, h1, h2, Nat.or_zero]

/-- Clearing STAT bit 2 via `&&& 0xFB` zeroes the bit. -/
theorem lyc_clear_bit (s : Nat) : (s &&& 0xFB) &&& 0x04 = 0 := by
  rw [Nat.and_assoc, show (0xFB &&& 0x04 : Nat) = 0 from rfl, Nat.and_zero]

/-- Setting STAT bit 2 via `||| 0x04` sets the bit. -/
theorem lyc_set_bit (s : Nat) : (s ||| 0x04) &&& 0x04 = 0x04 := by
  rw [Nat.and_distrib_right]
  have h : s &&& 0x04 = (s.testBit 2).toNat * 0x04 := by
    have h2 := Nat.and_two_pow s 2
    norm_num at h2
    exact h2
  rw [h]
  cases s.testBit 2 <;> decide

/-- C8: Starting from the freshly reset PPU state (mode OamScan, dots 0,
ly 0), in which the LCD is enabled (LCDC bit 7 set), stepping the PPU by
114 machine cycles of 4 dots each (456 dots total, partitioned OamScan 80 +
Drawing 172 + HBlank 204) leaves ly = 1 (both the internal counter and the
LY register) and mode = OamScan, whose numeric code is 2. -/
theorem ppu_scanline_progression :
    PpuRegisters.new.is_lcd_enabled = true ∧
    (Ppu.stepN 114 Ppu.new).scanline = 1 ∧
    (Ppu.stepN 114 Ppu.new).registers.ly = 1 ∧
    (Ppu.stepN 114 Ppu.new).mode = LcdMode.OamScan ∧
    LcdMode.OamScan.code = 2 :=
  ⟨rfl, rfl, rfl, rfl, rfl⟩

/-- C9: A 32 KiB all-zero buffer with the correct Nintendo logo and header
checksum byte 0 fails construction with computed checksum 231 against
expected 0; the same buffer with checksum byte 231 is accepted. -/
theorem cart_header_checksum_scenario :
    Cart.new (headerTestData 0) =
      some (.error (.HeaderCheckSumFailure 231 0)) ∧
    isOkCart (Cart.new (headerTestData 231)) = true :=
  ⟨rfl, rfl⟩

/-- C3: Evidence that a bus write into 0x0000–0x7FFF is NOT delegated to
the cartridge mapper: on an MBC1 cartridge with a 128 KiB ROM, a bus write
of 3 to 0x2100 is accepted but leaves the mapper unchanged, so a bus read
of 0x4000 still returns the bank-1 byte (0x11 at ROM offset 0x4000) rather
than the bank-3 byte (0x22 at ROM offset 0xC000); writing the same value
directly to the mapper does switch to bank 3. -/
theorem bus_rom_write_not_delegated :
    (mbc1TestBus.write 0x2100 0x03).isSome = true ∧
    ((mbc1TestBus.write 0x2100 0x03).getD (mbc1TestBus, none)).1.read 0x4000
      = some 0x11 ∧
    mbc1TestRom.data 0xC000 = 0x22 ∧
    (mbc1TestCart.write 0x2100 0x03).read 0x4000 = some 0x22 :=
  ⟨rfl, rfl, rfl, rfl⟩

/-- C4: Evidence that the bus is not total: a write to the unusable region
0xFEA0–0xFEFF panics (embedded as `none`) instead of being dropped, and a
read of 0xA000 on a cartridge without external RAM panics in the
`unwrap_or_else` of `MemoryBus::read` because `NoMBC::read` returns `None`
there; a read of the unusable region does return 0xFF. -/
theorem bus_panics_on_unusable_write_and_missing_ram :
    noMbcTestBus.write 0xFEA0 0x00 = none ∧
    noMbcTestBus.read 0xA000 = none ∧
    noMbcTestBus.read 0xFEA0 = some 0xFF :=
  ⟨rfl, rfl, rfl⟩

/-- C1: Evidence that `Cpu::step` does not service pending interrupts: with
status Running, IME set and IE & IF = 0x01 (VBlank pending), a step fetches
and executes the NOP at PC = 0x0100 — afterwards PC = 0x0101, the IF bit is
still set, IME is still set — instead of clearing the IF bit, clearing IME,
pushing PC and jumping to the vector 0x40. -/
theorem step_ignores_pending_interrupt :
    cpuTestBus.ie &&& cpuTestBus.io_registers 0x0F ≠ 0 ∧
    cpuTest.ime = true ∧
    cpuTest.step.isSome = true ∧
    (cpuTest.step.getD cpuTest).program_counter = 0x0101 ∧
    (cpuTest.step.getD cpuTest).memory.io_registers 0x0F = 0x01 ∧
    (cpuTest.step.getD cpuTest).ime = true ∧
    (cpuTest.step.getD cpuTest).memory.ie = 0x01 :=
  ⟨by decide, rfl, rfl, rfl, rfl, rfl, rfl⟩

/-- C5: Evidence on the unassigned opcodes: decoding any of the eleven
unassigned primary opcodes panics (embedded `none`) instead of producing an
instruction that sets status Errored, while every other primary opcode
decodes; a CPU whose status is Errored is frozen (`step` returns it
unchanged, shown here on a concrete Errored CPU). -/
theorem unassigned_opcodes_panic :
    (unassignedOpcodes.all fun b => (Instruction.get_instruction b).isNone) = true ∧
    ((List.range 0x100).all fun b =>
      (Instruction.get_instruction b).isSome || unassignedOpcodes.contains b) = true ∧
    cpuErrored.step = some cpuErrored :=
  ⟨rfl, by decide, rfl⟩

/-- C2: After every CPU operation the low nibble of the flag register F is
zero: every write to F masks bits 3..0 of the written value, a 16-bit write
to AF masks bits 3..0 of the low byte, and the POP AF instruction (which
stores through `set_af`) leaves F with a zero low nibble. -/
theorem flag_register_low_nibble_zero :
    (∀ (r : Register) (v : Nat), (r.set_f v).get_f % 16 = 0) ∧
    (∀ (r : Register) (v : Nat), (r.set_af v).get_f % 16 = 0) ∧
    (∀ (c d : Cpu), c.pop .AF = some d → d.register.get_f % 16 = 0) := by
  refine ⟨?_, ?_, ?_⟩
  · intro r v
    exact setF_mod16 r.af v
  · intro r v
    exact setAF_mod16 v
  · intro c d h
    unfold Cpu.pop at h
    rcases h1 : c.memory.read c.stack_pointer with _ | lo
    · rw [h1] at h
      simp at h
    · rw [h1] at h
      simp only [] at h
      rcases h2 : c.memory.read ((c.stack_pointer + 1) % 65536) with _ | hi
      · rw [h2] at h
        simp at h
      · rw [h2] at h
        simp only [Option.some.injEq] at h
        rw [← h]
        exact setAF_mod16 _

/-- C2 witness: the masking theorem applied at concrete inputs, including a
concrete POP AF whose two stack bytes are read from work RAM. -/
theorem flag_register_low_nibble_zero_witness :
    (Register.new.set_f 0xFF).get_f % 16 = 0 ∧
    (Register.new.set_af 0xFFFF).get_f % 16 = 0 ∧
    ((cpuPopTest.pop .AF).getD cpuPopTest).register.get_f % 16 = 0 :=
  ⟨flag_register_low_nibble_zero.1 Register.new 0xFF,
   flag_register_low_nibble_zero.2.1 Register.new 0xFFFF,
   flag_register_low_nibble_zero.2.2 cpuPopTest
     ((cpuPopTest.pop .AF).getD cpuPopTest) rfl⟩

/-- C6 counterexample: writing 0x0F — whose low nibble is 0xF, not 0xA — to
the MBC1 RAM-enable region enables external RAM (a subsequent RAM read
returns the stored byte 0x42 rather than 0xFF), because the code tests
`(value & 0x0A) == 0x0A` instead of the low nibble. -/
theorem mbc1_ram_enable_counterexample :
    (mbc1RamTest.write 0x0000 0x0F).ram_enabled = true ∧
    (mbc1RamTest.write 0x0000 0x0F).read 0xA000 = some 0x42 ∧
    0x0F % 16 ≠ 0xA :=
  ⟨rfl, rfl, by decide⟩

/-- C6 (amended): For every byte v written to an MBC1 address in
0x0000–0x1FFF, external RAM is enabled afterwards iff `v &&& 0x0A = 0x0A`
(bits 1 and 3 of v both set); while RAM is disabled, reads of 0xA000–0xBFFF
return 0xFF and writes there are ignored. -/
theorem mbc1_ram_enable_amended :
    (∀ (m : MBC1) (a v : Nat), a ≤ 0x1FFF →
      ((m.write a v).ram_enabled = true ↔ v &&& 0x0A = 0x0A)) ∧
    (∀ (m : MBC1) (a v : Nat), m.ram_enabled = false →
      0xA000 ≤ a → a ≤ 0xBFFF →
      m.read a = some 0xFF ∧ m.write a v = m) := by
  constructor
  · intro m a v ha
    unfold MBC1.write
    rw [if_pos ha]
    simp
  · intro m a v hen h1 h2
    constructor
    · unfold MBC1.read
      rw [if_neg (by omega), if_neg (by omega), if_pos ⟨h1, h2⟩, hen]
      simp
    · unfold MBC1.write
      rw [if_neg (by omega), if_neg (by omega), if_neg (by omega),
        if_neg (by omega), if_pos ⟨h1, h2⟩, hen]
      simp

/-- C6 witness: the amended RAM-enable law applied at concrete inputs —
writing 0x0A enables RAM, and on the disabled mapper a RAM read returns
0xFF while a RAM write is a no-op. -/
theorem mbc1_ram_enable_amended_witness :
    (mbc1RamTest.write 0x0000 0x0A).ram_enabled = true ∧
    mbc1RamTest.read 0xA000 = some 0xFF ∧
    mbc1RamTest.write 0xA000 0x07 = mbc1RamTest :=
  ⟨(mbc1_ram_enable_amended.1 mbc1RamTest 0x0000 0x0A (by decide)).mpr (by decide),
   (mbc1_ram_enable_amended.2 mbc1RamTest 0xA000 0x07 rfl (by decide) (by decide)).1,
   (mbc1_ram_enable_amended.2 mbc1RamTest 0xA000 0x07 rfl (by decide) (by decide)).2⟩

/-- A mode change in the OamScan handler resets the dot counter. -/
theorem handle_oam_scan_dots (p : Ppu)
    (h : (p.handle_oam_scan).1.mode ≠ p.mode) :
    (p.handle_oam_scan).1.dots = 0 := by
  by_cases hd : p.dots ≥ 80
  · simp [Ppu.handle_oam_scan, hd]
  · simp [Ppu.handle_oam_scan, hd] at h

/-- A mode change in the Drawing handler resets the dot counter. -/
theorem handle_drawing_dots (p : Ppu)
    (h : (p.handle_drawing).1.mode ≠ p.mode) :
    (p.handle_drawing).1.dots = 0 := by
  by_cases hd : p.dots ≥ 172
  · simp [Ppu.handle_drawing, hd, apply_ite]
  · simp [Ppu.handle_drawing, hd] at h

/-- A mode change in the HBlank handler resets the dot counter. -/
theorem handle_hblank_dots (p : Ppu)
    (h : (p.handle_hblank).1.mode ≠ p.mode) :
    (p.handle_hblank).1.dots = 0 := by
  by_cases hd : p.dots ≥ 204
  · unfold Ppu.handle_hblank
    rw [if_pos hd]
    dsimp only
    split
    · rfl
    · split
      · rfl
      · split
        · rfl
        · rfl
  · unfold Ppu.handle_hblank at h
    rw [if_neg hd] at h
    simp at h

/-- A mode change in the VBlank handler resets the dot counter. -/
theorem handle_vblank_dots (p : Ppu)
    (h : (p.handle_vblank).1.mode ≠ p.mode) :
    (p.handle_vblank).1.dots = 0 := by
  by_cases hd : p.dots ≥ 456
  · unfold Ppu.handle_vblank
    rw [if_pos hd]
    dsimp only
    split
    · split
      · rfl
      · rfl
    · rfl
  · unfold Ppu.handle_vblank at h
    rw [if_neg hd] at h
    simp at h

/-- C10: Whenever a call to the PPU's step changes the mode, the dot counter
of the resulting state is exactly 0 — dots supplied beyond the current
mode's threshold are discarded, never carried into the next mode.
Consequently stepping is not additive: from the reset state, one step of 252
dots ends in Drawing with 0 dots, while a step of 80 followed by a step of
172 ends in HBlank. -/
theorem mode_transition_resets_dots :
    (∀ (p : Ppu) (c : Nat), (p.step c).1.mode ≠ p.mode → (p.step c).1.dots = 0) ∧
    (Ppu.new.step 252).1.mode = LcdMode.Drawing ∧
    (Ppu.new.step 252).1.dots = 0 ∧
    ((Ppu.new.step 80).1.step 172).1.mode = LcdMode.HBlank ∧
    ((Ppu.new.step 80).1.step 172).1.dots = 0 := by
  refine ⟨?_, rfl, rfl, rfl, rfl⟩
  intro p c h
  by_cases hl : p.registers.is_lcd_enabled
  · unfold Ppu.step at h ⊢
    rw [hl] at h ⊢
    simp only [Bool.not_true, Bool.false_eq_true, if_false] at h ⊢
    cases hm : p.mode
    · rw [hm] at h
      exact handle_hblank_dots _ h
    · rw [hm] at h
      exact handle_vblank_dots _ h
    · rw [hm] at h
      exact handle_oam_scan_dots _ h
    · rw [hm] at h
      exact handle_drawing_dots _ h
  · have hl2 : p.registers.is_lcd_enabled = false := by
      simp at hl
      exact hl
    unfold Ppu.step at h
    rw [hl2] at h
    simp at h

/-- C10 witness: the dot-reset law applied at a concrete mode transition —
stepping the reset PPU by 80 dots leaves OamScan for Drawing with dots 0. -/
theorem mode_transition_resets_dots_witness :
    (Ppu.new.step 80).1.dots = 0 :=
  mode_transition_resets_dots.1 Ppu.new 80 (by decide)

/-- C7 counterexample: stepping the concrete PPU at the end of HBlank on
line 0 with LYC = 1 and STAT bit 6 clear changes ly to 1 = LYC, yet STAT
bit 2 is left clear — the code only evaluates the LYC comparison when the
LYC-interrupt enable is set, so the flag does not track `ly == LYC`
regardless of bit 6 as claimed. -/
theorem lyc_flag_counterexample :
    ppuHBlankTest.registers.is_lcd_enabled = true ∧
    (ppuHBlankTest.step 1).1.registers.ly = (ppuHBlankTest.step 1).1.registers.lyc ∧
    (ppuHBlankTest.step 1).1.registers.get_lyc_flag = false :=
  ⟨rfl, rfl, rfl⟩

/-- End-of-HBlank transition to a visible line with STAT bit 5 clear: STAT
bit 2 becomes set exactly when bit 6 is set and the new ly equals LYC, and
the LCD interrupt is returned in exactly that case. -/
theorem handle_hblank_lyc_a (p : Ppu) (h204 : p.dots ≥ 204)
    (hvis : (p.scanline + 1) % 256 < 144)
    (hoam : p.registers.stat &&& 0x20 = 0) :
    (p.handle_hblank).1.registers.stat &&& 0x04 =
      (if p.registers.stat &&& 0x40 ≠ 0 ∧ (p.scanline + 1) % 256 = p.registers.lyc
       then 0x04 else 0) ∧
    (p.handle_hblank).2 =
      (if p.registers.stat &&& 0x40 ≠ 0 ∧ (p.scanline + 1) % 256 = p.registers.lyc
       then some Interrupt.LCD else none) := by
  have hoam2 : ((p.registers.set_ly ((p.scanline + 1) % 256)).set_mode
      LcdMode.OamScan).is_oam_interrupt_enabled = false := by
    unfold PpuRegisters.is_oam_interrupt_enabled PpuRegisters.set_mode PpuRegisters.set_ly
    dsimp only
    rw [show LcdMode.code LcdMode.OamScan = 2 from rfl]
    rw [set_mode_preserves_bit p.registers.stat 2 0x20 rfl rfl, hoam]
    rfl
  have hlyc2 : ((p.registers.set_ly ((p.scanline + 1) % 256)).set_mode
      LcdMode.OamScan).is_lyc_interrupt_enabled = (p.registers.stat &&& 0x40 != 0) := by
    unfold PpuRegisters.is_lyc_interrupt_enabled PpuRegisters.set_mode PpuRegisters.set_ly
    dsimp only
    rw [show LcdMode.code LcdMode.OamScan = 2 from rfl]
    rw [set_mode_preserves_bit p.registers.stat 2 0x40 rfl rfl]
  unfold Ppu.handle_hblank
  rw [if_pos h204]
  dsimp only
  rw [if_neg (by omega)]
  rw [if_neg (by rw [hoam2]; simp)]
  by_cases hc : p.registers.stat &&& 0x40 ≠ 0 ∧
      (p.scanline + 1) % 256 = p.registers.lyc
  · rw [if_pos ?_]
    · rw [if_pos hc, if_pos hc]
      exact ⟨lyc_set_bit _, rfl⟩
    · constructor
      · rw [hlyc2]
        exact bne_iff_ne.mpr hc.1
      · exact hc.2
  · rw [if_neg ?_]
    · rw [if_neg hc, if_neg hc]
      exact ⟨lyc_clear_bit _, rfl⟩
    · intro hcc
      apply hc
      refine ⟨?_, hcc.2⟩
      have h1 := hcc.1
      rw [hlyc2] at h1
      exact bne_iff_ne.mp h1

/-- End-of-HBlank transition into VBlank (new ly at least 144): STAT bit 2
is left unchanged (the VBlank early return skips the LYC evaluation) and
the VBlank interrupt is returned. -/
theorem handle_hblank_lyc_c (p : Ppu) (h204 : p.dots ≥ 204)
    (hvb : (p.scanline + 1) % 256 ≥ 144) :
    (p.handle_hblank).1.registers.stat &&& 0x04 = p.registers.stat &&& 0x04 ∧
    (p.handle_hblank).2 = some Interrupt.VBlank := by
  unfold Ppu.handle_hblank
  rw [if_pos h204]
  dsimp only
  rw [if_pos hvb]
  exact ⟨set_mode_preserves_bit _ _ _ rfl rfl, rfl⟩

/-- The VBlank handler never touches STAT bit 2, on any of its paths. -/
theorem handle_vblank_lyc (p : Ppu) :
    (p.handle_vblank).1.registers.stat &&& 0x04 = p.registers.stat &&& 0x04 := by
  unfold Ppu.handle_vblank
  by_cases hd : p.dots ≥ 456
  · rw [if_pos hd]
    dsimp only
    by_cases h154 : (p.scanline + 1) % 256 ≥ 154
    · rw [if_pos h154]
      split
      · exact set_mode_preserves_bit _ _ _ rfl rfl
      · exact set_mode_preserves_bit _ _ _ rfl rfl
    · rw [if_neg h154]
      rfl
  · rw [if_neg hd]

/-- C7 (amended): On the ly change at the end of HBlank to a visible line,
when the OAM-interrupt enable (STAT bit 5) is clear, STAT bit 2 is set to 1
exactly when STAT bit 6 (the LYC-interrupt enable) is set AND the new ly
equals LYC — when bit 6 is clear the flag is cleared even if ly = LYC — and
the LCD interrupt is raised exactly in that case, with no 0-to-1 transition
requirement; the ly change entering VBlank and the ly changes during VBlank
leave STAT bit 2 unchanged (the LYC comparison is not re-evaluated there). -/
theorem stat_lyc_flag_update :
    (∀ (p : Ppu) (c : Nat),
      p.mode = .HBlank →
      p.registers.is_lcd_enabled = true →
      p.dots + c < 65536 → p.dots + c ≥ 204 →
      (p.scanline + 1) % 256 < 144 →
      p.registers.stat &&& 0x20 = 0 →
      (p.step c).1.registers.stat &&& 0x04 =
        (if p.registers.stat &&& 0x40 ≠ 0 ∧
            (p.scanline + 1) % 256 = p.registers.lyc
         then 0x04 else 0) ∧
      (p.step c).2 =
        (if p.registers.stat &&& 0x40 ≠ 0 ∧
            (p.scanline + 1) % 256 = p.registers.lyc
         then some Interrupt.LCD else none)) ∧
    (∀ (p : Ppu) (c : Nat),
      p.mode = .HBlank →
      p.registers.is_lcd_enabled = true →
      p.dots + c < 65536 → p.dots + c ≥ 204 →
      (p.scanline + 1) % 256 ≥ 144 →
      (p.step c).1.registers.stat &&& 0x04 = p.registers.stat &&& 0x04 ∧
      (p.step c).2 = some Interrupt.VBlank) ∧
    (∀ (p : Ppu) (c : Nat),
      p.mode = .VBlank →
      (p.step c).1.registers.stat &&& 0x04 = p.registers.stat &&& 0x04) := by
  refine ⟨?_, ?_, ?_⟩
  · intro p c hmode hlcd hlt h204 hvis hoam
    unfold Ppu.step
    rw [hlcd]
    simp only [Bool.not_true, Bool.false_eq_true, if_false]
    rw [hmode]
    exact handle_hblank_lyc_a _
      (by show 204 ≤ (p.dots + c) % 65536; omega) hvis hoam
  · intro p c hmode hlcd hlt h204 hvb
    unfold Ppu.step
    rw [hlcd]
    simp only [Bool.not_true, Bool.false_eq_true, if_false]
    rw [hmode]
    exact handle_hblank_lyc_c _
      (by show 204 ≤ (p.dots + c) % 65536; omega) hvb
  · intro p c hmode
    by_cases hlcd : p.registers.is_lcd_enabled
    · unfold Ppu.step
      rw [hlcd]
      simp only [Bool.not_true, Bool.false_eq_true, if_false]
      rw [hmode]
      exact handle_vblank_lyc _
    · have hl2 : p.registers.is_lcd_enabled = false := by
        simp at hlcd
        exact hlcd
      unfold Ppu.step
      rw [hl2]
      simp

/-- C7 witness: the amended LYC law applied at concrete inputs — the
HBlank test PPU (bit 6 clear, ly becomes 1 = LYC) gets STAT bit 2 cleared
and no interrupt; the VBlank-entry PPU keeps bit 2 and returns the VBlank
interrupt; a VBlank-mode PPU keeps bit 2. -/
theorem stat_lyc_flag_update_witness :
    ((ppuHBlankTest.step 1).1.registers.stat &&& 0x04 = 0 ∧
      (ppuHBlankTest.step 1).2 = none) ∧
    ((ppuVBlankEntryTest.step 0).1.registers.stat &&& 0x04 =
        ppuVBlankEntryTest.registers.stat &&& 0x04 ∧
      (ppuVBlankEntryTest.step 0).2 = some Interrupt.VBlank) ∧
    (ppuVBlankTest.step 4).1.registers.stat &&& 0x04 =
      ppuVBlankTest.registers.stat &&& 0x04 := by
  refine ⟨?_, ?_, ?_⟩
  · have h := stat_lyc_flag_update.1 ppuHBlankTest 1 rfl rfl (by decide)
      (by decide) (by decide) (by decide)
    exact ⟨by rw [h.1]; decide, by rw [h.2]; decide⟩
  · exact stat_lyc_flag_update.2.1 ppuVBlankEntryTest 0 rfl rfl (by decide)
      (by decide) (by decide)
  · exact stat_lyc_flag_update.2.2 ppuVBlankTest 4 rfl

end Cashgb
